import Mathlib

/-!
Verification of the evaluation pipeline of `digital_pet_tools`
(`cloud-function/main.py`): mode/criteria rubrics, rubric totals,
differential sigmoid normalization, standalone-quality scoring, the
defensive clamp, the model-gateway extraction and judgment parsing,
and the single-sample evaluator's exception-to-score boundary.

The Python functions are shallowly embedded: the pure scoring code is
translated directly; the network/storage calls are oracles supplied as
an explicit environment, with Python exceptions modelled as
`Except.error`.
-/

namespace DigitalPetTools

/-! ## Rubric registry (EVALUATION_CRITERIA category lists, main.py lines 373-638) -/

/-- Category list of the 10-category "comprehensive" rubric. -/
def comprehensiveCategories : List String :=
  ["pet_likeness", "pose_expression", "art_style_consistency",
   "color_harmony", "background_quality", "technical_execution",
   "visual_appeal", "composition_proportion", "detail_balance", "gift_marketability"]

/-- Category list of the 5-category "simplified" rubric. -/
def simplifiedCategories : List String :=
  ["pet_likeness", "visual_appeal", "technical_execution",
   "composition_proportion", "gift_marketability"]

/-- Category list of the 6-category "artistic" rubric. -/
def artisticCategories : List String :=
  ["art_style_consistency", "color_harmony", "visual_appeal",
   "technical_execution", "composition_proportion", "creative_interpretation"]

/-! ## Scoring engine -/

/-- A judgment's per-category score mapping: Python dict, absent key = `none`. -/
def Judgment : Type := String → Option ℤ

/-- Python `scores.get(category, 0)` (main.py lines 766, 934). -/
def categoryScore (scores : Judgment) (c : String) : ℤ :=
  (scores c).getD 0

/-- Python `sum(scores.get(category, 0) for category in score_categories)`
(main.py lines 765-770 and 934). -/
def total_score (cats : List String) (scores : Judgment) : ℤ :=
  (cats.map (fun c => categoryScore scores c)).sum

/-- Adding (or overwriting) one category in a judgment score mapping. -/
def addCategory (scores : Judgment) (c : String) (v : ℤ) : Judgment :=
  fun c' => if c' = c then some v else scores c'

/-- Standalone-quality normalization (main.py lines 932-938):
`total / max_possible if max_possible > 0 else 0` with
`max_possible = len(categories) * 10`. -/
def standalone_quality_score (cats : List String) (scores : Judgment) : ℚ :=
  let max_possible : ℤ := (cats.length : ℤ) * 10
  if 0 < max_possible then (total_score cats scores : ℚ) / (max_possible : ℚ) else 0

/-- The fixed sigmoid scale (main.py line 363). -/
def scale_factor : ℝ := 20

/-- Differential normalization (main.py lines 345-369):
`1.0 / (1.0 + math.exp(-score_difference / scale_factor))`. -/
noncomputable def smart_normalize_score_difference (d : ℝ) : ℝ :=
  1 / (1 + Real.exp (-d / scale_factor))

/-- The defensive clamp of the orchestrator (main.py line 93):
`max(0.0, min(1.0, score))`. -/
def clamp01 (x : ℚ) : ℚ := max 0 (min 1 x)

/-! ## Model gateway: image generation (generate_image_with_gemini, lines 312-338) -/

/-- One response part: optional text payload and optional binary image payload. -/
structure ResponsePart where
  text : Option String
  inline_data : Option (List Nat)
deriving DecidableEq

/-- One response candidate; `content = none` models a missing content object,
`content = some []` an empty parts list. -/
structure ResponseCandidate where
  content : Option (List ResponsePart)
deriving DecidableEq

/-- The upstream generation response. -/
structure GeminiResponse where
  candidates : List ResponseCandidate

/-- The loop condition of main.py lines 322-329: a part is selected when it
has a truthy `inline_data` whose `data` field is truthy (nonempty bytes). -/
def partImageData (p : ResponsePart) : Option (List Nat) :=
  match p.inline_data with
  | some d => if d = [] then none else some d
  | none => none

/-- The first part carrying binary image data (main.py lines 321-329). -/
def findGeneratedImage : List ResponsePart → Option (List Nat)
  | [] => none
  | p :: ps =>
    match partImageData p with
    | some d => some d
    | none => findGeneratedImage ps

/-- Extraction section of `generate_image_with_gemini` (main.py lines 312-338):
error when there is no candidate, no content part, or no image payload;
otherwise the first image payload is returned. -/
def generate_image_with_gemini (resp : GeminiResponse) : Except String (List Nat) :=
  match resp.candidates with
  | [] => Except.error "Gemini returned no candidates"
  | cand :: _ =>
    match cand.content with
    | none => Except.error "Gemini returned no content parts"
    | some parts =>
      if parts = [] then Except.error "Gemini returned no content parts"
      else
        match findGeneratedImage parts with
        | none => Except.error "Gemini did not return generated image data"
        | some d => Except.ok d

/-! ## Model gateway: judgment parsing (lines 731-758 and 908-930) -/

/-- Python `text.find(c)` restricted to a found index (`none` for -1). -/
def strFind (c : Char) : List Char → Option Nat
  | [] => none
  | a :: as => if a = c then some 0 else (strFind c as).map (fun i => i + 1)

/-- Python `text.rfind(c)` restricted to a found index (`none` for -1). -/
def strRFind (c : Char) (s : List Char) : Option Nat :=
  (strFind c s.reverse).map (fun i => s.length - 1 - i)

/-- JSON extraction of main.py lines 736-743 and 913-920:
`start = find("\x7b")`, `end = rfind("\x7d") + 1`, slice when
`start >= 0 and end > start`, else a parse failure. -/
def extractJson (s : List Char) : Option (List Char) :=
  match strFind '{' s, strRFind '}' s with
  | some i, some j => if i < j + 1 then some ((s.drop i).take (j + 1 - i)) else none
  | _, _ => none

/-- A model of the parsed JSON values (`json.loads` output). -/
inductive JValue where
  | jnull : JValue
  | jnum (n : ℤ) : JValue
  | jstr (s : String) : JValue
  | jobj (fields : List (String × JValue)) : JValue

/-- Key lookup in an object's field list. -/
def lookupField : List (String × JValue) → String → Option JValue
  | [], _ => none
  | (k', v) :: fs, k => if k' = k then some v else lookupField fs k

/-- Python `d[k]` / `k in d` support: field access on an object, `none` otherwise. -/
def JValue.getField? : JValue → String → Option JValue
  | JValue.jobj fs, k => lookupField fs k
  | _, _ => none

/-- Python `k in d` on the model. -/
def JValue.hasField (v : JValue) (k : String) : Bool :=
  (v.getField? k).isSome

/-- Schema condition of comparison mode (main.py lines 750-755): the object
has `scores` and the scores object has both `image1` and `image2`. -/
def comparisonSchemaOk (d : JValue) : Bool :=
  match d.getField? "scores" with
  | some s => s.hasField "image1" && s.hasField "image2"
  | none => false

/-- Schema condition of standalone mode (main.py lines 927-928): the object
has `scores`. -/
def standaloneSchemaOk (d : JValue) : Bool :=
  (d.getField? "scores").isSome

/-- Judgment-stage failure kinds: unparsable response vs schema violation. -/
inductive JudgeError where
  | parseError (msg : String) : JudgeError
  | schemaError (msg : String) : JudgeError
deriving DecidableEq

/-- Comparison-mode judgment parsing (main.py lines 731-758), with
`json.loads` supplied as an oracle. -/
def judgeComparison (text : List Char) (loads : List Char → Option JValue) :
    Except JudgeError JValue :=
  match extractJson text with
  | none => Except.error (JudgeError.parseError "No valid JSON found in response")
  | some js =>
    match loads js with
    | none => Except.error (JudgeError.parseError "Failed to parse Gemini evaluation response")
    | some d =>
      if comparisonSchemaOk d then Except.ok d
      else Except.error (JudgeError.schemaError "Missing required score data in evaluation response")

/-- Standalone-mode judgment parsing (main.py lines 908-930), with
`json.loads` supplied as an oracle. -/
def judgeStandalone (text : List Char) (loads : List Char → Option JValue) :
    Except JudgeError JValue :=
  match extractJson text with
  | none => Except.error (JudgeError.parseError "No valid JSON found in response")
  | some js =>
    match loads js with
    | none => Except.error (JudgeError.parseError "Failed to parse Gemini standalone evaluation response")
    | some d =>
      if standaloneSchemaOk d then Except.ok d
      else Except.error (JudgeError.schemaError "Missing required score data in evaluation response")

/-! ## Single-sample evaluator (evaluate_single_sample, lines 118-194) -/

/-- The oracle environment of one sample evaluation: the four external
steps, each able to raise (`Except.error`). `judge` bundles the judgment
call plus scoring, which the source wraps in one inner try. -/
structure Env where
  generate : Except String (List Nat)
  save : List Nat → Except String String
  record : Except String Unit
  judge : Except String (ℚ × String)

/-- Body of `evaluate_single_sample` inside the outer try (lines 126-186):
generation and judging have their own inner catches returning 0.0;
storage (`save_generated_image_to_storage`) and the record write
(`store_generation_record`) re-raise, so their errors propagate out of
the body. The score is `Option ℚ` to mirror the dynamically-typed Python
return value that the caller tests against `None`. -/
def evalSingleBody (env : Env) : Except String (Option ℚ × String) :=
  match env.generate with
  | Except.error e => Except.ok (some 0, "Image generation failed: " ++ e)
  | Except.ok bytes =>
    if bytes = [] then
      Except.ok (some 0, "Image generation failed - no image was produced")
    else
      match env.save bytes with
      | Except.error e => Except.error e
      | Except.ok url =>
        if url = "" then
          Except.ok (some 0, "Image storage failed - could not save generated image")
        else
          match env.record with
          | Except.error e => Except.error e
          | Except.ok _ =>
            match env.judge with
            | Except.error e => Except.ok (some 0, "Evaluation failed: " ++ e)
            | Except.ok se => Except.ok (some se.1, se.2)

/-- `evaluate_single_sample` (lines 118-194): the body runs inside a
blanket `try`/`except` whose handler (lines 188-194) converts any raised
exception into the outcome `(0.0, "Sample evaluation failed: ...")`. -/
def evaluate_single_sample (env : Env) : Except String (Option ℚ × String) :=
  match evalSingleBody env with
  | Except.ok r => Except.ok r
  | Except.error e => Except.ok (some 0, "Sample evaluation failed: " ++ e)

/-- Whether some step of the sample evaluation fails (raises or yields a
falsy artifact), i.e. whether a 0.0 penalty outcome is due. -/
def stepFailed (env : Env) : Bool :=
  match env.generate with
  | Except.error _ => true
  | Except.ok bytes =>
    if bytes = [] then true
    else
      match env.save bytes with
      | Except.error _ => true
      | Except.ok url =>
        if url = "" then true
        else
          match env.record with
          | Except.error _ => true
          | Except.ok _ =>
            match env.judge with
            | Except.error _ => true
            | Except.ok _ => false

/-- The orchestrator's post-evaluation step (evaluate_image_prompt,
main.py lines 89-93): raise "Evaluation failed for the sample" when the
returned score is `None`, else clamp the score to [0,1]. -/
def evaluate_image_prompt (env : Env) : Except String (ℚ × String) :=
  match evaluate_single_sample env with
  | Except.error e => Except.error e
  | Except.ok (none, _) => Except.error "Evaluation failed for the sample"
  | Except.ok (some s, expl) => Except.ok (clamp01 s, expl)

/-! ## Fan-out scheduler -/

/-- Modelled from the spec: the Fan-out Scheduler's fixed worker-pool
capacity ("default capacity 20 concurrent evaluations"); the scheduler
itself is absent from src/ (main.py evaluates one sample per request). -/
def defaultWorkerPoolCapacity : Nat := 20

/-- One batch entry: a sample id and that sample's oracle environment. -/
structure BatchItem where
  id : Nat
  env : Env

/-- Modelled from the spec: the Fan-out Scheduler (absent from src/) runs
the Single-Sample Evaluator over the batch, associates each outcome back
to its sample id, and aborts the whole batch if any evaluator raises past
its own internal catch. Completion order is irrelevant to the aggregate,
which is keyed by id, so the pool is modelled as sequential traversal. -/
def fanOutScheduler : List BatchItem → Except String (List (Nat × (Option ℚ × String)))
  | [] => Except.ok []
  | item :: rest =>
    match evaluate_single_sample item.env with
    | Except.error e => Except.error e
    | Except.ok out =>
      match fanOutScheduler rest with
      | Except.error e => Except.error e
      | Except.ok outs => Except.ok ((item.id, out) :: outs)

/-- An environment in which every step succeeds and the judgment stage
yields score `s` with explanation `expl`. -/
def succeedsWith (env : Env) (s : ℚ) (expl : String) : Prop :=
  ∃ bytes url, env.generate = Except.ok bytes ∧ bytes ≠ [] ∧
    env.save bytes = Except.ok url ∧ url ≠ "" ∧
    env.record = Except.ok () ∧ env.judge = Except.ok (s, expl)

/-- A normally-scored sample of a batch: its id, its oracle environment,
and the score/explanation its judgment stage yields. -/
structure OkSample where
  id : Nat
  env : Env
  score : ℚ
  expl : String

/-- The batch entry of a normally-scored sample. -/
def okItem (x : OkSample) : BatchItem := ⟨x.id, x.env⟩

/-- The aggregate outcome of a normally-scored sample. -/
def okOutcome (x : OkSample) : Nat × (Option ℚ × String) :=
  (x.id, (some x.score, x.expl))

/-! ## Concrete environments used by witnesses -/

/-- Environment whose judgment stage scores every rubric category 15,
i.e. out of the documented [0,10] range. -/
def outOfRangeEnv : Env where
  generate := Except.ok [1]
  save := fun _ => Except.ok "https://storage.example/img.jpg"
  record := Except.ok ()
  judge := Except.ok (standalone_quality_score comprehensiveCategories (fun _ => some 15),
                      "judgment scored 15 per category")

/-- Environment whose generation step raises. -/
def genFailEnv : Env where
  generate := Except.error "Gemini image generation failed: boom"
  save := fun _ => Except.ok "https://storage.example/img.jpg"
  record := Except.ok ()
  judge := Except.ok (1, "unused")

/-- Environment in which every step succeeds with judgment score 1. -/
def allOkEnv : Env where
  generate := Except.ok [1]
  save := fun _ => Except.ok "https://storage.example/img.jpg"
  record := Except.ok ()
  judge := Except.ok (1, "good")

/-- Environment reproducing the missing-credential record-write failure:
generation and storage succeed, `store_generation_record` raises its
missing-credentials exception (main.py lines 206-209, re-raised at 244). -/
def recordFailEnv : Env where
  generate := Except.ok [1]
  save := fun _ => Except.ok "https://storage.example/img.jpg"
  record := Except.error "Missing Supabase credentials for image storage"
  judge := Except.ok (1, "unused")

/-! ## Helper lemmas -/

/-- The clamp is bounded below by 0. -/
lemma clamp01_nonneg (x : ℚ) : 0 ≤ clamp01 x :=
  le_max_left 0 _

/-- The clamp is bounded above by 1. -/
lemma clamp01_le_one (x : ℚ) : clamp01 x ≤ 1 := by
  unfold clamp01
  apply max_le
  · norm_num
  · exact min_le_left 1 x

/-- A rubric total where every category scores the same value `v`. -/
lemma total_score_const : ∀ (cats : List String) (scores : Judgment) (v : ℤ),
    (∀ c ∈ cats, categoryScore scores c = v) → total_score cats scores = v * cats.length := by
  intro cats scores v
  induction cats with
  | nil => intro _; simp [total_score]
  | cons a t ih =>
    intro h
    simp only [total_score, List.map_cons, List.sum_cons, List.length_cons] at ih ⊢
    rw [h a (by simp), ih (fun c hc => h c (by simp [hc]))]
    push_cast
    ring

/-- The evaluator's outer handler means it always returns a value. -/
lemma eval_never_error (env : Env) : ∃ out, evaluate_single_sample env = Except.ok out := by
  unfold evaluate_single_sample
  cases hbody : evalSingleBody env with
  | ok r => exact ⟨r, rfl⟩
  | error e => exact ⟨(some 0, "Sample evaluation failed: " ++ e), rfl⟩

/-- Every path of the evaluator returns a `some` score. -/
lemma eval_some (env : Env) :
    ∃ q expl, evaluate_single_sample env = Except.ok (some q, expl) := by
  obtain ⟨gen, save, rec, judge⟩ := env
  simp only [evaluate_single_sample, evalSingleBody]
  cases gen with
  | error e => exact ⟨0, _, rfl⟩
  | ok bytes =>
    simp only
    by_cases hb : bytes = []
    · simp only [if_pos hb]
      exact ⟨0, _, rfl⟩
    · simp only [if_neg hb]
      cases hs : save bytes with
      | error e => simp only [hs]; exact ⟨0, _, rfl⟩
      | ok url =>
        simp only [hs]
        by_cases hu : url = ""
        · simp only [if_pos hu]
          exact ⟨0, _, rfl⟩
        · simp only [if_neg hu]
          cases rec with
          | error e => exact ⟨0, _, rfl⟩
          | ok u =>
            cases judge with
            | error e => exact ⟨0, _, rfl⟩
            | ok se => exact ⟨se.1, se.2, rfl⟩

/-- Any failing step yields the 0.0-scored outcome. -/
lemma eval_stepFailed (env : Env) (h : stepFailed env = true) :
    ∃ msg, evaluate_single_sample env = Except.ok (some 0, msg) := by
  obtain ⟨gen, save, rec, judge⟩ := env
  simp only [stepFailed] at h
  simp only [evaluate_single_sample, evalSingleBody]
  cases gen with
  | error e => exact ⟨_, rfl⟩
  | ok bytes =>
    simp only at h ⊢
    by_cases hb : bytes = []
    · simp only [if_pos hb]
      exact ⟨_, rfl⟩
    · simp only [if_neg hb] at h ⊢
      cases hs : save bytes with
      | error e => simp only [hs] at h ⊢; exact ⟨_, rfl⟩
      | ok url =>
        simp only [hs] at h ⊢
        by_cases hu : url = ""
        · simp only [if_pos hu]
          exact ⟨_, rfl⟩
        · simp only [if_neg hu] at h ⊢
          cases rec with
          | error e => exact ⟨_, rfl⟩
          | ok u =>
            cases judge with
            | error e => exact ⟨_, rfl⟩
            | ok se => simp at h

/-- A generation failure produces the generation 0.0 outcome. -/
lemma eval_genFail (env : Env) (g : String) (h : env.generate = Except.error g) :
    evaluate_single_sample env = Except.ok (some 0, "Image generation failed: " ++ g) := by
  simp only [evaluate_single_sample, evalSingleBody, h]

/-- A fully successful evaluation returns the judged score unchanged. -/
lemma eval_succeeds (env : Env) (s : ℚ) (x : String) (h : succeedsWith env s x) :
    evaluate_single_sample env = Except.ok (some s, x) := by
  obtain ⟨bytes, url, hg, hb, hs, hu, hr, hj⟩ := h
  simp only [evaluate_single_sample, evalSingleBody, hg, hs, hr, hj, if_neg hb, if_neg hu]

/-- The success predicate holds of the all-success witness environment. -/
lemma allOkEnv_succeeds : succeedsWith allOkEnv 1 "good" :=
  ⟨[1], "https://storage.example/img.jpg", rfl, by decide, rfl, by decide, rfl, rfl⟩

/-- The scheduler maps a list of normally-scored samples to their outcomes. -/
lemma fanOut_ok (l : List OkSample)
    (h : ∀ x ∈ l, succeedsWith x.env x.score x.expl) :
    fanOutScheduler (l.map okItem) = Except.ok (l.map okOutcome) := by
  induction l with
  | nil => rfl
  | cons a t ih =>
    simp only [List.map_cons, fanOutScheduler, okItem]
    rw [eval_succeeds a.env a.score a.expl (h a (by simp))]
    rw [ih (fun x hx => h x (by simp [hx]))]
    rfl

/-- The scheduler processes a normally-scored prefix and prepends its
outcomes to whatever the rest of the batch produces. -/
lemma fanOut_append_ok (pre : List OkSample) (rest : List BatchItem)
    (h : ∀ x ∈ pre, succeedsWith x.env x.score x.expl) :
    fanOutScheduler (pre.map okItem ++ rest)
      = (fanOutScheduler rest).map (fun outs => pre.map okOutcome ++ outs) := by
  induction pre with
  | nil =>
    simp only [List.map_nil, List.nil_append]
    cases fanOutScheduler rest <;> simp [Except.map]
  | cons a t ih =>
    simp only [List.map_cons, List.cons_append, fanOutScheduler, okItem, List.append_eq]
    rw [eval_succeeds a.env a.score a.expl (h a (by simp))]
    rw [ih (fun x hx => h x (by simp [hx]))]
    cases fanOutScheduler rest <;> simp [Except.map, okOutcome]

/-- Character search is `none` when the character is absent. -/
lemma strFind_not_mem (c : Char) (s : List Char) (h : c ∉ s) : strFind c s = none := by
  induction s with
  | nil => rfl
  | cons a as ih =>
    simp only [List.mem_cons, not_or] at h
    have hne : ¬ (a = c) := fun hac => h.1 hac.symm
    simp [strFind, hne, ih h.2]

/-- Character search skips over a prefix that lacks the character. -/
lemma strFind_append_none (c : Char) (p rest : List Char) (h : c ∉ p) :
    strFind c (p ++ rest) = (strFind c rest).map (fun i => i + p.length) := by
  induction p with
  | nil =>
    simp only [List.nil_append, List.length_nil]
    cases strFind c rest <;> simp
  | cons a as ih =>
    simp only [List.mem_cons, not_or] at h
    have hne : ¬ (a = c) := fun hac => h.1 hac.symm
    simp only [List.cons_append, strFind, hne, if_false, List.append_eq, ih h.2,
      List.length_cons]
    cases strFind c rest with
    | none => rfl
    | some i =>
      simp only [Option.map_some']
      congr 1

/-- Character search finds a leading occurrence at index 0. -/
lemma strFind_cons_self (c : Char) (s : List Char) : strFind c (c :: s) = some 0 := by
  simp [strFind]

/-- First-open-brace to last-close-brace extraction recovers a brace-delimited
body from surrounding prose that contains no interfering braces. -/
lemma extractJson_wrap (p1 mid p2 : List Char) (h1 : '{' ∉ p1) (h2 : '}' ∉ p2) :
    extractJson (p1 ++ ('{' :: mid ++ ['}']) ++ p2) = some ('{' :: mid ++ ['}']) := by
  have hassoc : p1 ++ ('{' :: mid ++ ['}']) ++ p2 = p1 ++ (('{' :: mid ++ ['}']) ++ p2) :=
    List.append_assoc _ _ _
  have hfind : strFind '{' (p1 ++ ('{' :: mid ++ ['}']) ++ p2) = some p1.length := by
    rw [hassoc, strFind_append_none _ _ _ h1]
    rw [show ('{' :: mid ++ ['}']) ++ p2 = '{' :: (mid ++ ['}'] ++ p2) by simp]
    rw [strFind_cons_self]
    simp
  have hrev : (p1 ++ ('{' :: mid ++ ['}']) ++ p2).reverse
      = p2.reverse ++ ('}' :: (mid.reverse ++ ('{' :: p1.reverse))) := by
    simp [List.reverse_append]
  have h2' : '}' ∉ p2.reverse := by simpa using h2
  have hrfind : strFind '}' (p1 ++ ('{' :: mid ++ ['}']) ++ p2).reverse = some p2.length := by
    rw [hrev, strFind_append_none _ _ _ h2', strFind_cons_self]
    simp
  have hlen : (p1 ++ ('{' :: mid ++ ['}']) ++ p2).length
      = p1.length + (mid.length + 2) + p2.length := by
    simp
    omega
  unfold extractJson strRFind
  rw [hfind, hrfind]
  simp only [Option.map_some']
  rw [hlen]
  have harith : p1.length + (mid.length + 2) + p2.length - 1 - p2.length
      = p1.length + mid.length + 1 := by omega
  rw [harith]
  rw [if_pos (by omega)]
  congr 1
  have hdrop : ((p1 ++ ('{' :: mid ++ ['}']) ++ p2).drop p1.length)
      = ('{' :: mid ++ ['}']) ++ p2 := by
    rw [hassoc]
    exact List.drop_left p1 _
  rw [hdrop]
  have harith2 : p1.length + mid.length + 1 + 1 - p1.length = mid.length + 2 := by omega
  rw [harith2]
  have hblen : ('{' :: mid ++ ['}']).length = mid.length + 2 := by simp
  rw [← hblen]
  exact List.take_left _ _

/-- Extraction fails when the text has no opening brace. -/
lemma extractJson_no_open (s : List Char) (h : '{' ∉ s) : extractJson s = none := by
  unfold extractJson
  rw [strFind_not_mem _ _ h]

/-- A parts list with no image payload yields no generated image. -/
lemma findGeneratedImage_none (parts : List ResponsePart)
    (h : ∀ p ∈ parts, partImageData p = none) : findGeneratedImage parts = none := by
  induction parts with
  | nil => rfl
  | cons p ps ih =>
    simp only [findGeneratedImage, h p (by simp)]
    exact ih (fun q hq => h q (by simp [hq]))

/-- The first image-carrying part wins, skipping an imageless prefix. -/
lemma findGeneratedImage_first (pre : List ResponsePart) (p : ResponsePart)
    (post : List ResponsePart) (d : List Nat)
    (hpre : ∀ q ∈ pre, partImageData q = none) (hp : partImageData p = some d) :
    findGeneratedImage (pre ++ p :: post) = some d := by
  induction pre with
  | nil => simp [findGeneratedImage, hp]
  | cons q qs ih =>
    simp only [List.cons_append, findGeneratedImage, hpre q (by simp)]
    exact ih (fun r hr => hpre r (by simp [hr]))

/-! ## Claims -/

/-- C1: for every evaluation request that completes successfully, the
scalar score returned to the caller lies in the closed interval [0,1],
even when upstream judgment category scores fall outside [0,10] (the
judge oracle's value is unconstrained, so this covers e.g. 15). -/
theorem claim_C1_score_clamped :
    ∀ (env : Env) (s : ℚ) (expl : String),
      evaluate_image_prompt env = Except.ok (s, expl) → 0 ≤ s ∧ s ≤ 1 := by
  intro env s expl h
  unfold evaluate_image_prompt at h
  cases hev : evaluate_single_sample env with
  | error e => rw [hev] at h; simp at h
  | ok r =>
    obtain ⟨sc, expl'⟩ := r
    cases sc with
    | none => rw [hev] at h; simp at h
    | some q =>
      rw [hev] at h
      simp only [Except.ok.injEq, Prod.mk.injEq] at h
      obtain ⟨hs, -⟩ := h
      rw [← hs]
      exact ⟨clamp01_nonneg q, clamp01_le_one q⟩

/-- C1 witness: a request whose judgment scored every rubric category 15
still returns an in-range scalar. -/
theorem claim_C1_witness :
    0 ≤ clamp01 (standalone_quality_score comprehensiveCategories fun _ => some 15)
    ∧ clamp01 (standalone_quality_score comprehensiveCategories fun _ => some 15) ≤ 1 :=
  claim_C1_score_clamped outOfRangeEnv _ "judgment scored 15 per category" rfl

/-- C2: the differential normalization is the logistic `1/(1+e^(-d/20))`
with fixed scale 20; it is exactly 1/2 at 0, strictly increasing, and
satisfies `score d + score (-d) = 1` for every real `d`. -/
theorem claim_C2_sigmoid_normalization :
    scale_factor = 20
    ∧ (∀ d : ℝ, smart_normalize_score_difference d = 1 / (1 + Real.exp (-(d / 20))))
    ∧ smart_normalize_score_difference 0 = 1 / 2
    ∧ StrictMono smart_normalize_score_difference
    ∧ (∀ d : ℝ, smart_normalize_score_difference d
        + smart_normalize_score_difference (-d) = 1) := by
  refine ⟨rfl, ?_, ?_, ?_, ?_⟩
  · intro d
    unfold smart_normalize_score_difference scale_factor
    rw [neg_div]
  · unfold smart_normalize_score_difference scale_factor
    norm_num [Real.exp_zero]
  · intro a b hab
    unfold smart_normalize_score_difference scale_factor
    have hb : (0:ℝ) < 1 + Real.exp (-b / 20) := by positivity
    have hlt : 1 + Real.exp (-b / 20) < 1 + Real.exp (-a / 20) := by
      have hd : -b / 20 < -a / 20 := by linarith
      have := Real.exp_lt_exp.mpr hd
      linarith
    exact one_div_lt_one_div_of_lt hb hlt
  · intro d
    unfold smart_normalize_score_difference scale_factor
    simp only [neg_neg]
    have h1 : (0:ℝ) < 1 + Real.exp (-d / 20) := by positivity
    have h2 : (0:ℝ) < 1 + Real.exp (d / 20) := by positivity
    have hxy : Real.exp (-d / 20) * Real.exp (d / 20) = 1 := by
      rw [← Real.exp_add]
      have h3 : -d / 20 + d / 20 = 0 := by ring
      rw [h3, Real.exp_zero]
    field_simp
    linear_combination -hxy

/-- C2 witness: strict monotonicity applied at the concrete pair 0 < 1. -/
theorem claim_C2_witness :
    smart_normalize_score_difference 0 < smart_normalize_score_difference 1 :=
  claim_C2_sigmoid_normalization.2.2.2.1 zero_lt_one

/-- C3: the single-sample evaluator never lets an exception escape (its
result is always `ok`), and whenever any step along the path fails the
outcome carries score 0.0 with a diagnostic string. -/
theorem claim_C3_exceptions_absorbed :
    ∀ env : Env,
      (∃ out, evaluate_single_sample env = Except.ok out)
      ∧ (stepFailed env = true →
          ∃ msg, evaluate_single_sample env = Except.ok (some 0, msg)) :=
  fun env => ⟨eval_never_error env, fun h => eval_stepFailed env h⟩

/-- C3 witness: a failing generation step yields an ok 0.0 outcome. -/
theorem claim_C3_witness :
    ∃ msg, evaluate_single_sample genFailEnv = Except.ok (some 0, msg) :=
  (claim_C3_exceptions_absorbed genFailEnv).2 rfl

/-- C4: evaluating the code at the failing input — generation and storage
succeed but the record write raises its missing-credentials error — shows
the infrastructure failure is absorbed into an ok outcome scored 0.0
instead of aborting the request. -/
theorem claim_C4_infra_failure_absorbed :
    evaluate_single_sample recordFailEnv
      = Except.ok (some 0,
          "Sample evaluation failed: Missing Supabase credentials for image storage") := rfl

/-- C5: the standalone-quality score equals `total/(10*N)` for `N` rubric
categories, is 0 when every category scores 0, and is 1 when every
category scores 10. -/
theorem claim_C5_standalone_score :
    ∀ (cats : List String) (scores : Judgment),
      standalone_quality_score cats scores = (total_score cats scores : ℚ) / (10 * cats.length)
      ∧ ((∀ c ∈ cats, categoryScore scores c = 0) → standalone_quality_score cats scores = 0)
      ∧ (cats ≠ [] → (∀ c ∈ cats, categoryScore scores c = 10) →
          standalone_quality_score cats scores = 1) := by
  intro cats scores
  refine ⟨?_, ?_, ?_⟩
  · by_cases h : cats = []
    · subst h
      simp [standalone_quality_score, total_score]
    · have hlen : 0 < cats.length := List.length_pos.mpr h
      unfold standalone_quality_score
      rw [if_pos (by exact_mod_cast Nat.mul_pos hlen (by norm_num))]
      push_cast
      ring
  · intro h0
    have ht : total_score cats scores = 0 := by
      have := total_score_const cats scores 0 h0
      simpa using this
    unfold standalone_quality_score
    rw [ht]
    simp
  · intro hne h10
    have hlen : 0 < cats.length := List.length_pos.mpr hne
    have ht : total_score cats scores = 10 * cats.length := total_score_const cats scores 10 h10
    unfold standalone_quality_score
    rw [if_pos (by exact_mod_cast Nat.mul_pos hlen (by norm_num)), ht]
    have hq : ((cats.length : ℚ)) ≠ 0 := by
      exact_mod_cast Nat.pos_iff_ne_zero.mp hlen
    push_cast
    field_simp
    ring

/-- C5 witness: the comprehensive 10-category rubric with every category
scored 10 yields score 1. -/
theorem claim_C5_witness :
    standalone_quality_score comprehensiveCategories (fun _ => some 10) = 1 :=
  (claim_C5_standalone_score comprehensiveCategories (fun _ => some 10)).2.2
    (by decide) (by decide)

/-- C6: the rubric total is the sum over the category list with absent
categories contributing 0, and adding a category scored 0 to the
judgment (a category it did not contain) leaves the total unchanged. -/
theorem claim_C6_total_score :
    ∀ (cats : List String) (scores : Judgment),
      total_score cats scores
        = (cats.map (fun c => match scores c with | some v => v | none => 0)).sum
      ∧ (∀ c, scores c = none →
          total_score cats (addCategory scores c 0) = total_score cats scores) := by
  intro cats scores
  constructor
  · unfold total_score categoryScore
    have hf : (fun c => (scores c).getD 0)
        = (fun c => match scores c with | some v => v | none => 0) :=
      funext fun c => by cases scores c <;> rfl
    rw [hf]
  · intro c hc
    have hfun : ∀ x, categoryScore (addCategory scores c 0) x = categoryScore scores x := by
      intro x
      unfold categoryScore addCategory
      by_cases hx : x = c
      · subst hx
        simp [hc]
      · simp [hx]
    unfold total_score
    simp only [hfun]

/-- C6 witness: adding a zero-scored absent category to a concrete
judgment leaves the comprehensive total unchanged. -/
theorem claim_C6_witness :
    total_score comprehensiveCategories
        (addCategory (fun s => if s = "pet_likeness" then some 3 else none)
          "brand_new_category" 0)
      = total_score comprehensiveCategories
          (fun s => if s = "pet_likeness" then some 3 else none) :=
  (claim_C6_total_score comprehensiveCategories
      (fun s => if s = "pet_likeness" then some 3 else none)).2
    "brand_new_category" rfl

/-- C7: the judge extracts the judgment JSON as the substring between the
first opening brace and the last closing brace — prose before/after the
object is tolerated by both judge modes — fails with a parse error when
no such object or when decoding fails, and fails with a schema error when
the parsed object lacks the expected score structure for the active mode
(`scores` with `image1` and `image2` in comparison mode, `scores` in
standalone mode). -/
theorem claim_C7_judgment_parsing :
    (∀ p1 mid p2 : List Char, '{' ∉ p1 → '}' ∉ p2 →
        extractJson (p1 ++ ('{' :: mid ++ ['}']) ++ p2) = some ('{' :: mid ++ ['}']))
    ∧ (∀ (p1 mid p2 : List Char) (loads : List Char → Option JValue),
        '{' ∉ p1 → '}' ∉ p2 →
        judgeComparison (p1 ++ ('{' :: mid ++ ['}']) ++ p2) loads
          = judgeComparison ('{' :: mid ++ ['}']) loads
        ∧ judgeStandalone (p1 ++ ('{' :: mid ++ ['}']) ++ p2) loads
          = judgeStandalone ('{' :: mid ++ ['}']) loads)
    ∧ (∀ s, '{' ∉ s → extractJson s = none)
    ∧ (∀ (s : List Char) (loads : List Char → Option JValue), extractJson s = none →
        judgeComparison s loads
          = Except.error (JudgeError.parseError "No valid JSON found in response")
        ∧ judgeStandalone s loads
          = Except.error (JudgeError.parseError "No valid JSON found in response"))
    ∧ (∀ (s js : List Char) (loads : List Char → Option JValue),
        extractJson s = some js → loads js = none →
        judgeComparison s loads
          = Except.error (JudgeError.parseError "Failed to parse Gemini evaluation response")
        ∧ judgeStandalone s loads
          = Except.error
              (JudgeError.parseError "Failed to parse Gemini standalone evaluation response"))
    ∧ (∀ (s js : List Char) (d : JValue) (loads : List Char → Option JValue),
        extractJson s = some js → loads js = some d →
        (comparisonSchemaOk d = false →
          judgeComparison s loads
            = Except.error
                (JudgeError.schemaError "Missing required score data in evaluation response"))
        ∧ (standaloneSchemaOk d = false →
          judgeStandalone s loads
            = Except.error
                (JudgeError.schemaError "Missing required score data in evaluation response"))) := by
  have hbody : ∀ mid : List Char,
      extractJson ('{' :: mid ++ ['}']) = some ('{' :: mid ++ ['}']) := by
    intro mid
    have := extractJson_wrap [] mid [] (by simp) (by simp)
    simpa using this
  refine ⟨extractJson_wrap, ?_, extractJson_no_open, ?_, ?_, ?_⟩
  · intro p1 mid p2 loads h1 h2
    constructor
    · unfold judgeComparison
      rw [extractJson_wrap p1 mid p2 h1 h2, hbody]
    · unfold judgeStandalone
      rw [extractJson_wrap p1 mid p2 h1 h2, hbody]
  · intro s loads hex
    constructor
    · unfold judgeComparison
      rw [hex]
    · unfold judgeStandalone
      rw [hex]
  · intro s js loads hex hl
    constructor
    · unfold judgeComparison
      rw [hex]
      simp only [hl]
    · unfold judgeStandalone
      rw [hex]
      simp only [hl]
  · intro s js d loads hex hl
    constructor
    · intro hschema
      unfold judgeComparison
      rw [hex]
      simp [hl, hschema]
    · intro hschema
      unfold judgeStandalone
      rw [hex]
      simp [hl, hschema]

/-- C7 witness: a response without any JSON object fails both judge modes
with the parse error. -/
theorem claim_C7_witness :
    judgeComparison ['x'] (fun _ => none)
      = Except.error (JudgeError.parseError "No valid JSON found in response")
    ∧ judgeStandalone ['x'] (fun _ => none)
      = Except.error (JudgeError.parseError "No valid JSON found in response") :=
  claim_C7_judgment_parsing.2.2.2.1 ['x'] (fun _ => none) rfl

/-- C8: the generate operation errors when the response has no candidates,
no content parts, or no part carrying nonempty binary image data; when at
least one image part exists it returns the first such part's data,
ignoring later image parts and never substituting placeholder content. -/
theorem claim_C8_generate_extraction :
    (generate_image_with_gemini ⟨[]⟩ = Except.error "Gemini returned no candidates")
    ∧ (∀ rest, generate_image_with_gemini ⟨⟨none⟩ :: rest⟩
        = Except.error "Gemini returned no content parts")
    ∧ (∀ rest, generate_image_with_gemini ⟨⟨some []⟩ :: rest⟩
        = Except.error "Gemini returned no content parts")
    ∧ (∀ (parts : List ResponsePart) rest, parts ≠ [] →
        (∀ p ∈ parts, partImageData p = none) →
        generate_image_with_gemini ⟨⟨some parts⟩ :: rest⟩
          = Except.error "Gemini did not return generated image data")
    ∧ (∀ (pre : List ResponsePart) (d : List Nat) (post : List ResponsePart)
        (rest : List ResponseCandidate) (t : Option String),
        (∀ p ∈ pre, partImageData p = none) → d ≠ [] →
        generate_image_with_gemini ⟨⟨some (pre ++ ⟨t, some d⟩ :: post)⟩ :: rest⟩
          = Except.ok d) := by
  refine ⟨rfl, fun rest => rfl, fun rest => rfl, ?_, ?_⟩
  · intro parts rest hne h
    unfold generate_image_with_gemini
    simp only [if_neg hne, findGeneratedImage_none parts h]
  · intro pre d post rest t hpre hd
    unfold generate_image_with_gemini
    have hne : pre ++ (⟨t, some d⟩ : ResponsePart) :: post ≠ [] := by simp
    have himg : partImageData ⟨t, some d⟩ = some d := by
      unfold partImageData
      simp [hd]
    simp only [if_neg hne, findGeneratedImage_first pre _ post d hpre himg]

/-- C8 witness: a response whose first part is text and second part
carries image bytes yields exactly those bytes. -/
theorem claim_C8_witness :
    generate_image_with_gemini
        ⟨[⟨some [⟨some "caption", none⟩, ⟨none, some [7, 7]⟩]⟩]⟩ = Except.ok [7, 7] :=
  claim_C8_generate_extraction.2.2.2.2 [⟨some "caption", none⟩] [7, 7] [] [] none
    (by decide) (by decide)

/-- C9: every batch of 5 samples in which exactly one sample's image
generation fails — at any position, surrounded by a normally-scored
prefix and suffix totalling 4 samples — completes without aborting and
yields exactly one 0.0-scored outcome and four normally-scored outcomes,
keyed by sample id, under the scheduler whose default worker-pool
capacity is 20. -/
theorem claim_C9_batch_fanout :
    ∀ (pre post : List OkSample) (iFail : Nat) (eFail : Env) (g : String),
      pre.length + post.length = 4 →
      eFail.generate = Except.error g →
      (∀ x ∈ pre, succeedsWith x.env x.score x.expl) →
      (∀ x ∈ post, succeedsWith x.env x.score x.expl) →
      fanOutScheduler (pre.map okItem ++ ⟨iFail, eFail⟩ :: post.map okItem)
        = Except.ok (pre.map okOutcome
            ++ (iFail, (some 0, "Image generation failed: " ++ g)) :: post.map okOutcome)
      ∧ defaultWorkerPoolCapacity = 20 := by
  intro pre post iFail eFail g hlen hgen hpre hpost
  refine ⟨?_, rfl⟩
  rw [fanOut_append_ok pre _ hpre]
  simp only [fanOutScheduler, eval_genFail eFail g hgen, fanOut_ok post hpost]
  rfl

/-- C9 witness: a concrete 5-sample batch whose second sample's
generation fails. -/
theorem claim_C9_witness :
    fanOutScheduler [⟨2, allOkEnv⟩, ⟨1, genFailEnv⟩, ⟨3, allOkEnv⟩,
        ⟨4, allOkEnv⟩, ⟨5, allOkEnv⟩]
      = Except.ok
          [(2, (some 1, "good")),
           (1, (some 0, "Image generation failed: "
              ++ "Gemini image generation failed: boom")),
           (3, (some 1, "good")), (4, (some 1, "good")), (5, (some 1, "good"))]
      ∧ defaultWorkerPoolCapacity = 20 :=
  claim_C9_batch_fanout [⟨2, allOkEnv, 1, "good"⟩]
    [⟨3, allOkEnv, 1, "good"⟩, ⟨4, allOkEnv, 1, "good"⟩, ⟨5, allOkEnv, 1, "good"⟩]
    1 genFailEnv "Gemini image generation failed: boom"
    rfl rfl
    (by
      intro x hx
      simp only [List.mem_singleton] at hx
      subst hx
      exact allOkEnv_succeeds)
    (by
      intro x hx
      simp only [List.mem_cons, List.not_mem_nil, or_false] at hx
      rcases hx with rfl | rfl | rfl <;> exact allOkEnv_succeeds)

/-- C10: the evaluator's score component is always a numeric value, never
`None`; consequently the orchestrator's "Evaluation failed for the
sample" branch is unreachable. -/
theorem claim_C10_score_never_none :
    ∀ env : Env,
      (∃ q expl, evaluate_single_sample env = Except.ok (some q, expl))
      ∧ evaluate_image_prompt env ≠ Except.error "Evaluation failed for the sample" := by
  intro env
  obtain ⟨q, expl, h⟩ := eval_some env
  refine ⟨⟨q, expl, h⟩, ?_⟩
  unfold evaluate_image_prompt
  rw [h]
  simp

/-- C10 witness: the unreachable branch is not taken on a concrete
all-success environment. -/
theorem claim_C10_witness :
    evaluate_image_prompt allOkEnv ≠ Except.error "Evaluation failed for the sample" :=
  (claim_C10_score_never_none allOkEnv).2

end DigitalPetTools
